import Mathlib

/-!
Verification development for the omegaconf core data model: the scalar
ValueNode family (src/omegaconf/nodes.py) and the sequence container
ListConfig (src/omegaconf/listconfig.py), shallowly embedded in Lean.

Python raw values are modelled by the inductive `PyVal`; Python exceptions
by `PyError` carried in `Except`.  Mutating container operations are
modelled as functions returning an `Except` outcome *paired with* the
post-call container state, because Python exceptions do not roll back
mutations performed before the raise.

Repository code that is referenced by src/ but whose file is not under
src/ (base.py, basecontainer.py, errors.py, _utils.py, omegaconf.py) is
modelled from the spec; each such definition carries a doc comment
starting with "Modelled from the spec:".
-/

/-- Kinds of raw string classified by the resolver hook (spec section 2/6). -/
inductive ValueKind where
  | plain
  | interpolation
  | mandatory_missing
deriving DecidableEq, Repr

/-- Python float values: a rational value or the NaN special value.  This
abstracts IEEE-754 doubles by exact rationals; no claim in this
development depends on rounding. -/
inductive PyFloat where
  | nan
  | val (q : ℚ)
deriving DecidableEq, Repr

/-- A Python enum class, as bound to an EnumNode: a class name together
with the ordered member list (member name, member value).  Member values
are modelled as ints, the only value type the claims exercise. -/
structure EnumType where
  name : String
  members : List (String × Int)
deriving DecidableEq, Repr

/-- Python raw values flowing through the omegaconf core.  `obj` stands
for an arbitrary non-primitive Python object, identified by its type
name (which is all the code under test ever extracts from one). -/
inductive PyVal where
  | none
  | bool (b : Bool)
  | int (i : Int)
  | float (f : PyFloat)
  | str (s : String)
  | enum (et : EnumType) (member : String)
  | obj (typeName : String)
deriving DecidableEq, Repr

/-- Model of Python's `str.lower` on one character (ASCII range, the only
range the vocabulary strings of BooleanNode use). -/
def pyLowerChar (c : Char) : Char :=
  if 65 ≤ c.toNat ∧ c.toNat ≤ 90 then Char.ofNat (c.toNat + 32) else c

/-- Model of Python's `str.lower` (ASCII range). -/
def pyLower (s : String) : String :=
  ⟨s.data.map pyLowerChar⟩

/-- ASCII decimal digit test, by code point. -/
def isDigitChar (c : Char) : Bool :=
  48 ≤ c.toNat && c.toNat ≤ 57

/-- Numeric value of a digit list, most significant first. -/
def digitsToNat (cs : List Char) : Nat :=
  cs.foldl (fun a c => a * 10 + (c.toNat - 48)) 0

/-- Model of Python's `int()` builtin applied to a string, on the
character list: an optional sign followed by a nonempty digit run.
(Python additionally strips surrounding whitespace and allows underscore
digit separators; no claim exercises those forms.) -/
def parseIntChars : List Char → Option Int
  | [] => Option.none
  | c :: rest =>
      if c = '-' then
        if rest ≠ [] ∧ rest.all isDigitChar then some (-(digitsToNat rest : Int)) else Option.none
      else if c = '+' then
        if rest ≠ [] ∧ rest.all isDigitChar then some ((digitsToNat rest : Int)) else Option.none
      else
        if (c :: rest).all isDigitChar then some ((digitsToNat (c :: rest) : Int)) else Option.none

/-- Model of Python's `int()` builtin on a string. -/
def parseInt (s : String) : Option Int :=
  parseIntChars s.data

/-- Model of Python's `float()` builtin on a string, restricted to integer
literals and "nan"; the decimal-point and exponent forms are not modelled
because no claim depends on them (a successfully parsed string always
yields a `PyFloat`, which is all the theorems below use). -/
def parseFloat (s : String) : Option PyFloat :=
  if pyLower s = "nan" then some PyFloat.nan
  else (parseIntChars s.data).map (fun i => PyFloat.val (i : ℚ))

/-- Model of Python's `str()` builtin on the modelled values.  Float
formatting abstracts Python's repr; it only ever feeds diagnostic
messages. -/
def pyStr : PyVal → String
  | PyVal.none => "None"
  | PyVal.bool b => if b then "True" else "False"
  | PyVal.int i => toString i
  | PyVal.float PyFloat.nan => "nan"
  | PyVal.float (PyFloat.val q) => toString q
  | PyVal.str s => s
  | PyVal.enum et m => et.name ++ "." ++ m
  | PyVal.obj t => t

/-- Model of Python's `type(value).__name__` on the modelled values. -/
def pyTypeName : PyVal → String
  | PyVal.none => "NoneType"
  | PyVal.bool _ => "bool"
  | PyVal.int _ => "int"
  | PyVal.float _ => "float"
  | PyVal.str _ => "str"
  | PyVal.enum et _ => et.name
  | PyVal.obj t => t

/-- Numeric reading of a value for Python `==`: `some (some q)` for a
finite number (bools count as 0/1), `some none` for NaN, `none` for a
non-numeric value. -/
def asNum : PyVal → Option (Option ℚ)
  | PyVal.bool b => some (some (if b then 1 else 0))
  | PyVal.int i => some (some (i : ℚ))
  | PyVal.float PyFloat.nan => some Option.none
  | PyVal.float (PyFloat.val q) => some (some q)
  | _ => Option.none

/-- Model of Python `==` on the modelled raw values: numeric values
compare across bool/int/float by numeric value, NaN equals nothing,
other kinds compare within their kind only; `obj` compares by identity,
modelled by the tag. -/
def pyEq (a b : PyVal) : Bool :=
  match asNum a, asNum b with
  | some x, some y =>
      match x, y with
      | some qa, some qb => qa = qb
      | _, _ => false
  | _, _ =>
      match a, b with
      | PyVal.str s, PyVal.str t => s = t
      | PyVal.none, PyVal.none => true
      | PyVal.enum e1 m1, PyVal.enum e2 m2 => e1 = e2 ∧ m1 = m2
      | PyVal.obj t1, PyVal.obj t2 => t1 = t2
      | _, _ => false

/-- Errors raised by the embedded code, mirroring errors.py plus the
Python builtin exceptions the sources raise.  `readonlyConfigError`
carries the full key passed to the constructor, or `none` when the
source raises `ReadonlyConfigError()` with no argument. -/
inductive PyError where
  | validationError (msg : String)
  | unsupportedValueType (msg : String)
  | unsupportedKeyType (msg : String)
  | readonlyConfigError (path : Option String)
  | missingMandatoryValue (path : String)
  | indexError
  | valueError (msg : String)
  | assertionError
deriving DecidableEq, Repr

instance {ε α : Type} [DecidableEq ε] [DecidableEq α] : DecidableEq (Except ε α) := by
  intro x y
  cases x <;> cases y
  case error.error e1 e2 =>
    exact if h : e1 = e2 then Decidable.isTrue (by rw [h]) else
      Decidable.isFalse (fun hc => by cases hc; exact h rfl)
  case ok.ok a1 a2 =>
    exact if h : a1 = a2 then Decidable.isTrue (by rw [h]) else
      Decidable.isFalse (fun hc => by cases hc; exact h rfl)
  case error.ok e a => exact Decidable.isFalse (fun hc => by cases hc)
  case ok.error a e => exact Decidable.isFalse (fun hc => by cases hc)

/-- Scan a character list for an occurrence of the interpolation opener. -/
def containsInterpChars : List Char → Bool
  | '$' :: '{' :: _ => true
  | _ :: rest => containsInterpChars rest
  | [] => false

/-- Modelled from the spec: `get_value_kind` from _utils.py (not under
src/), the resolver-hook classification of a raw string (spec sections 2
and 6): the string "???" is the mandatory-missing marker, a string
containing the interpolation opener "${" is an interpolation expression,
anything else is plain. -/
def get_value_kind (s : String) : ValueKind :=
  if s = "???" then ValueKind.mandatory_missing
  else if containsInterpChars s.data then ValueKind.interpolation
  else ValueKind.plain

/-- The scalar node kinds of nodes.py (spec section 3 table). -/
inductive NodeKind where
  | any
  | string
  | integer
  | float
  | boolean
  | enumT (et : EnumType)
deriving DecidableEq, Repr

/-- A scalar value node: concrete kind, the `is_optional` flag and the
stored value slot `val` (nodes.py, class ValueNode).  The parent back
reference is not modelled: no claim in this development reads it. -/
structure ValueNode where
  kind : NodeKind
  isOptional : Bool
  val : PyVal
deriving DecidableEq, Repr

/-- ValueNode.value (nodes.py line 21): returns the stored value
unmodified. -/
def ValueNode.value (n : ValueNode) : PyVal :=
  n.val

/-- Modelled from the spec: `_is_primitive_type` from omegaconf.py (not
under src/): primitives are bool, int, float, str, none and
already-canonical values of the other primitive kinds (enum members);
everything else is non-primitive (spec section 3 table, Any row). -/
def is_primitive_type : PyVal → Bool
  | PyVal.obj _ => false
  | _ => true

/-- The EnumNode string normalization (nodes.py 280-282): a leading
"EnumTypeName." qualifier is stripped before the member-name lookup. -/
def stripEnumPfx (et : EnumType) (s : String) : String :=
  if s.startsWith (et.name ++ ".") then s.drop (et.name.length + 1) else s

/-- validate_and_convert, dispatched on the concrete node kind: AnyNode
(nodes.py 83), StringNode (109), IntegerNode (129), FloatNode (160),
BooleanNode (205), EnumNode (262).  The BooleanNode recursive call
`self.validate_and_convert(int(value))` on a numeric string is inlined
as the int branch it lands in. -/
def validate_and_convert : NodeKind → PyVal → Except PyError PyVal
  | NodeKind.any, v =>
      if is_primitive_type v then Except.ok v
      else Except.error (PyError.unsupportedValueType
        ("Unsupported value type, type=" ++ pyTypeName v ++ ", value=" ++ pyStr v))
  | NodeKind.string, v =>
      match v with
      | PyVal.none => Except.ok PyVal.none
      | w => Except.ok (PyVal.str (pyStr w))
  | NodeKind.integer, v =>
      match v with
      | PyVal.none => Except.ok PyVal.none
      | PyVal.int i => Except.ok (PyVal.int i)
      | PyVal.str s =>
          match parseInt s with
          | some i => Except.ok (PyVal.int i)
          | Option.none => Except.error (PyError.validationError
              ("Value '" ++ s ++ "' could not be converted to Integer"))
      | w => Except.error (PyError.validationError
          ("Value '" ++ pyStr w ++ "' could not be converted to Integer"))
  | NodeKind.float, v =>
      match v with
      | PyVal.none => Except.ok PyVal.none
      | PyVal.float f => Except.ok (PyVal.float f)
      | PyVal.int i => Except.ok (PyVal.float (PyFloat.val (i : ℚ)))
      | PyVal.str s =>
          match parseFloat s with
          | some f => Except.ok (PyVal.float f)
          | Option.none => Except.error (PyError.validationError
              ("Value '" ++ s ++ "' could not be converted to float"))
      | w => Except.error (PyError.validationError
          ("Value '" ++ pyStr w ++ "' could not be converted to float"))
  | NodeKind.boolean, v =>
      match v with
      | PyVal.bool b => Except.ok (PyVal.bool b)
      | PyVal.int i => Except.ok (PyVal.bool (decide (i ≠ 0)))
      | PyVal.none => Except.ok PyVal.none
      | PyVal.str s =>
          match parseInt s with
          | some i => Except.ok (PyVal.bool (decide (i ≠ 0)))
          | Option.none =>
              if pyLower s ∈ ["yes", "y", "on", "true"] then Except.ok (PyVal.bool true)
              else if pyLower s ∈ ["no", "n", "off", "false"] then Except.ok (PyVal.bool false)
              else Except.error (PyError.validationError
                ("Value '" ++ s ++ "' is not a valid bool"))
      | w => Except.error (PyError.validationError
          ("Value '" ++ pyStr w ++ "' is not a valid bool (type " ++ pyTypeName w ++ ")"))
  | NodeKind.enumT et, v =>
      match v with
      | PyVal.none => Except.ok PyVal.none
      | PyVal.enum et2 m =>
          if et2 = et then
            -- isinstance branch: key = value.name; assert key in self.fields
            if (et.members.lookup m).isSome then Except.ok (PyVal.enum et m)
            else Except.error PyError.assertionError
          else Except.error (PyError.validationError
            ("Value " ++ pyStr v ++ " (" ++ pyTypeName v ++ ") is not a valid input for " ++ et.name))
      | PyVal.str s =>
          if (et.members.lookup (stripEnumPfx et s)).isSome then
            Except.ok (PyVal.enum et (stripEnumPfx et s))
          else Except.error (PyError.validationError ("Invalid value '" ++ s ++ "'"))
      | PyVal.int i =>
          match et.members.find? (fun p => p.2 = i) with
          | some p => Except.ok (PyVal.enum et p.1)
          | Option.none => Except.error (PyError.validationError
              ("Invalid value '" ++ pyStr v ++ "'"))
      | w => Except.error (PyError.validationError
          ("Value " ++ pyStr w ++ " (" ++ pyTypeName w ++ ") is not a valid input for " ++ et.name))

/-- The guard of ValueNode.set_value (nodes.py 27): the input is a string
and the resolver hook classifies it as interpolation or mandatory
missing. -/
def isInterpOrMissingStr : PyVal → Bool
  | PyVal.str s =>
      get_value_kind s = ValueKind.interpolation ∨ get_value_kind s = ValueKind.mandatory_missing
  | _ => false

/-- ValueNode.set_value (nodes.py 24-35). -/
def ValueNode.set_value (n : ValueNode) (value : PyVal) : Except PyError ValueNode :=
  if isInterpOrMissingStr value then Except.ok { n with val := value }
  else if n.isOptional = false ∧ value = PyVal.none then
    Except.error (PyError.validationError "Non optional field cannot be assigned None")
  else (validate_and_convert n.kind value).map (fun c => { n with val := c })

/-- AnyNode.__init__ (nodes.py 72-81): the base constructor stores the
given `is_optional`, which the AnyNode constructor then unconditionally
overwrites with True before assigning the initial value. -/
def AnyNode.make (value : PyVal) (is_optional : Bool) : Except PyError ValueNode :=
  let base : ValueNode := { kind := NodeKind.any, isOptional := is_optional, val := PyVal.none }
  let forced : ValueNode := { base with isOptional := true }
  forced.set_value value

/-- Node construction for the other scalar kinds (StringNode,
IntegerNode, FloatNode, BooleanNode __init__): store the given
`is_optional` and assign the initial value. -/
def mkNode (k : NodeKind) (value : PyVal) (is_optional : Bool) : Except PyError ValueNode :=
  match k with
  | NodeKind.any => AnyNode.make value is_optional
  | _ => ValueNode.set_value { kind := k, isOptional := is_optional, val := PyVal.none } value

/-- The second operand of FloatNode.__eq__: either a raw Python value or
another value node ("isinstance(other, ValueNode)"). -/
inductive PyOperand where
  | raw (v : PyVal)
  | node (n : ValueNode)
deriving DecidableEq, Repr

/-- True exactly when the operand is the raw Python object None. -/
def PyOperand.isPyNone : PyOperand → Bool
  | PyOperand.raw PyVal.none => true
  | _ => false

/-- The stored value a float is NaN ("math.isnan(x) if isinstance(x, float)"). -/
def isNanVal : PyVal → Bool
  | PyVal.float PyFloat.nan => true
  | _ => false

/-- FloatNode.__eq__ (nodes.py 173-186).  Note the None branches test the
operand object `other`, not the extracted `other_val`. -/
def FloatNode.eq (self : ValueNode) (other : PyOperand) : Bool :=
  let other_val := match other with
    | PyOperand.node n => n.val
    | PyOperand.raw v => v
  if self.val = PyVal.none ∧ other.isPyNone then true
  else if self.val = PyVal.none ∧ ¬other.isPyNone then false
  else if ¬(self.val = PyVal.none) ∧ other.isPyNone then false
  else
    pyEq self.val other_val || (isNanVal self.val && isNanVal other_val)

example : validate_and_convert NodeKind.boolean (PyVal.str "off") = Except.ok (PyVal.bool false) := by decide
example : validate_and_convert NodeKind.boolean (PyVal.str "TRUE") = Except.ok (PyVal.bool true) := by decide
example : validate_and_convert NodeKind.boolean (PyVal.str "2") = Except.ok (PyVal.bool true) := by decide
example : (validate_and_convert NodeKind.boolean (PyVal.str "maybe")).isOk = false := by decide
example : get_value_kind "???" = ValueKind.mandatory_missing := by decide
example : get_value_kind "${a.b}" = ValueKind.interpolation := by decide
example : get_value_kind "hello" = ValueKind.plain := by decide

/-- Python list index normalization for element access: a non-negative
index must be below the length, a negative index counts from the end;
anything else is out of range. -/
def normIdx (index : Int) (len : Nat) : Option Nat :=
  if 0 ≤ index ∧ index < (len : Int) then some index.toNat
  else if -(len : Int) ≤ index ∧ index < 0 then some ((len : Int) + index).toNat
  else Option.none

/-- Python `list.insert` position clamping: negative indices count from
the end bounded below by 0, positive indices are bounded above by the
length. -/
def pyInsertPos (index : Int) (len : Nat) : Nat :=
  if index < 0 then ((len : Int) + index).toNat else min index.toNat len

/-- Insert an element at a (already clamped) position. -/
def insertAt (l : List α) (i : Nat) (a : α) : List α :=
  l.take i ++ a :: l.drop i

/-- Python `list.pop(index)`: the removed element and the remaining list,
or `none` when the index is out of range. -/
def pyPopList (l : List α) (index : Int) : Option (α × List α) :=
  match normIdx index l.length with
  | Option.none => Option.none
  | some i =>
      match l[i]? with
      | some a => some (a, l.eraseIdx i)
      | Option.none => Option.none

/-- The sequence container (listconfig.py, class ListConfig).  `content`
holds the owned element nodes; only scalar ValueNode elements are
modelled, which is all the claims exercise.  `flags` is this node's
local flag mapping and `ancestorFlags` the flag mappings of its
ancestors, nearest first (spec section 4.2); `pathBase` is this
container's own full path from the tree root, used only to render
diagnostic full keys (spec section 3). -/
structure ListConfig where
  content : List ValueNode
  elemType : NodeKind
  flags : List (String × Bool)
  ancestorFlags : List (List (String × Bool))
  pathBase : String
deriving DecidableEq, Repr

/-- First hit walking a list of flag mappings. -/
def walkFlags (chain : List (List (String × Bool))) (name : String) : Option Bool :=
  match chain with
  | [] => Option.none
  | m :: rest =>
      match m.lookup name with
      | some b => some b
      | Option.none => walkFlags rest name

/-- Modelled from the spec: `_get_flag` from basecontainer.py (not under
src/), spec section 4.2: check the local flag mapping, else delegate up
the parent chain, unset (`none`) at the root. -/
def ListConfig.getFlag (c : ListConfig) (name : String) : Option Bool :=
  walkFlags (c.flags :: c.ancestorFlags) name

/-- Modelled from the spec: `get_full_key` from base.py (not under src/),
spec section 3: a container element's full path is the container's own
path with the element key in index brackets appended. -/
def ListConfig.get_full_key (c : ListConfig) (key : String) : String :=
  c.pathBase ++ "[" ++ key ++ "]"

/-- Modelled from the spec: `_maybe_wrap` from omegaconf.py (not under
src/), spec section 4.3 write path: wrap a raw value into a new
ValueNode of the container's element type ("Any" disables the
constraint); container values would be deep-copied, but only scalar
elements are modelled here. -/
def maybe_wrap (annotated_type : NodeKind) (value : PyVal) (is_optional : Bool) :
    Except PyError ValueNode :=
  mkNode annotated_type value is_optional

/-- The placeholder AnyNode(None) used by ListConfig.insert. -/
def anyNodeNone : ValueNode :=
  { kind := NodeKind.any, isOptional := true, val := PyVal.none }

/-- Modelled from the spec: `_set_item_impl` from basecontainer.py (not
under src/), spec section 4.3 write path: wrap the raw value into a
ValueNode of the element type and replace the element at the (possibly
negative) index; an out-of-range index fails and nothing is mutated
before the replacement itself. -/
def ListConfig.set_item_impl (c : ListConfig) (index : Int) (value : PyVal) :
    Except PyError ListConfig :=
  match normIdx index c.content.length with
  | Option.none => Except.error PyError.indexError
  | some i =>
      match maybe_wrap c.elemType value true with
      | Except.ok node => Except.ok { c with content := c.content.set i node }
      | Except.error e => Except.error e

/-- ListConfig._set_at_index (listconfig.py 65-85).  The UnsupportedKeyType
guard for non-integer keys is enforced by this embedding's types; the
deep copy of container values is not modelled (scalar elements only). -/
def ListConfig.set_at_index (c : ListConfig) (index : Int) (value : PyVal) :
    Except PyError ListConfig :=
  if c.getFlag "readonly" = some true then
    Except.error (PyError.readonlyConfigError (some (c.get_full_key (toString index))))
  else
    match c.set_item_impl index value with
    | Except.error (PyError.unsupportedValueType _) =>
        Except.error (PyError.unsupportedValueType
          ("key " ++ c.get_full_key (toString index) ++ ": " ++ pyTypeName value
            ++ " is not a supported type"))
    | r => r

/-- ListConfig.__setitem__ (listconfig.py 87-88), as outcome paired with
the post-call state: no mutation survives a failure because wrapping
precedes the replacement. -/
def ListConfig.setItem (c : ListConfig) (index : Int) (value : PyVal) :
    Except PyError Unit × ListConfig :=
  match c.set_at_index index value with
  | Except.ok c2 => (Except.ok (), c2)
  | Except.error e => (Except.error e, c)

/-- ListConfig.append (listconfig.py 90-109). -/
def ListConfig.append (c : ListConfig) (item : PyVal) : Except PyError Unit × ListConfig :=
  if c.getFlag "readonly" = some true then
    (Except.error (PyError.readonlyConfigError
      (some (c.get_full_key (toString c.content.length)))), c)
  else
    match maybe_wrap c.elemType item true with
    | Except.ok node => (Except.ok (), { c with content := c.content ++ [node] })
    | Except.error (PyError.unsupportedValueType _) =>
        (Except.error (PyError.unsupportedValueType
          ("key " ++ c.get_full_key (toString c.content.length) ++ ": " ++ pyTypeName item
            ++ " is not a supported type")), c)
    | Except.error e => (Except.error e, c)

/-- ListConfig.insert (listconfig.py 111-119): insert the AnyNode(None)
placeholder with Python list.insert clamping, attempt the real
assignment, and on failure delete at the raw index and re-raise; the
deletion itself fails (and the placeholder survives) when the raw index
is out of range of the grown list. -/
def ListConfig.insert (c : ListConfig) (index : Int) (item : PyVal) :
    Except PyError Unit × ListConfig :=
  if c.getFlag "readonly" = some true then
    (Except.error (PyError.readonlyConfigError (some (c.get_full_key (toString index)))), c)
  else
    match ({ c with content := (insertAt c.content (pyInsertPos index c.content.length)
        anyNodeNone) } : ListConfig).set_at_index index item with
    | Except.ok c2 => (Except.ok (), c2)
    | Except.error e =>
        match normIdx index
            (insertAt c.content (pyInsertPos index c.content.length) anyNodeNone).length with
        | some i =>
            (Except.error e,
              { c with content :=
                  (insertAt c.content (pyInsertPos index c.content.length)
                    anyNodeNone).eraseIdx i })
        | Option.none =>
            (Except.error PyError.indexError,
              { c with content := (insertAt c.content (pyInsertPos index c.content.length)
                  anyNodeNone) })

/-- ListConfig.extend (listconfig.py 121-124): append the elements one by
one; elements appended before a failure stay appended. -/
def ListConfig.extend (c : ListConfig) : List PyVal → Except PyError Unit × ListConfig
  | [] => (Except.ok (), c)
  | x :: xs =>
      match c.append x with
      | (Except.ok _, c2) => c2.extend xs
      | (Except.error e, c2) => (Except.error e, c2)

/-- ListConfig.__iter__ (listconfig.py 206-221): iteration yields each
element node's stored value (`v.value()`), never the node. -/
def ListConfig.iterVals (c : ListConfig) : List PyVal :=
  c.content.map ValueNode.value

/-- ListConfig.index (listconfig.py 132-141): the first position whose
iterated value equals the probe under Python `==`, else ValueError. -/
def ListConfig.index (c : ListConfig) (x : PyVal) : Except PyError Int :=
  match c.iterVals.findIdx? (fun v => pyEq x v) with
  | some i => Except.ok (i : Int)
  | Option.none => Except.error (PyError.valueError "Item not found in ListConfig")

/-- Modelled from the spec: element deletion (`__delitem__`, basecontainer,
not under src/), spec section 4.3 write path: fail with
ReadonlyConfigError carrying the element's full path when the read-only
flag is set, before any mutation; otherwise remove the element at the
index. -/
def ListConfig.delItem (c : ListConfig) (index : Int) : Except PyError Unit × ListConfig :=
  if c.getFlag "readonly" = some true then
    (Except.error (PyError.readonlyConfigError (some (c.get_full_key (toString index)))), c)
  else
    match normIdx index c.content.length with
    | some i => (Except.ok (), { c with content := c.content.eraseIdx i })
    | Option.none => (Except.error PyError.indexError, c)

/-- ListConfig.remove (listconfig.py 126-127): `del self[self.index(x)]`. -/
def ListConfig.remove (c : ListConfig) (x : PyVal) : Except PyError Unit × ListConfig :=
  match c.index x with
  | Except.ok i => c.delItem i
  | Except.error e => (Except.error e, c)

/-- ListConfig.clear (listconfig.py 129-130): `del self[:]`.  Modelled
from the spec for the slice deletion (basecontainer, not under src/):
the read-only check carries the container's full key with an empty
element key; otherwise all elements are removed. -/
def ListConfig.clear (c : ListConfig) : Except PyError Unit × ListConfig :=
  if c.getFlag "readonly" = some true then
    (Except.error (PyError.readonlyConfigError (some (c.get_full_key ""))), c)
  else
    (Except.ok (), { c with content := [] })

/-- Modelled from the spec: `_resolve_with_default` from basecontainer.py
(not under src/), spec sections 4.3 read path and 6: substitute the
caller-supplied default when the stored value is absent, fail with
MissingMandatoryValue (carrying the full key) when the value is the
mandatory-missing marker, otherwise return the unwrapped scalar.
Interpolation resolution is performed outside this core and is not
modelled: interpolation placeholders come back verbatim. -/
def ListConfig.resolve_with_default (c : ListConfig) (key : String) (node : ValueNode)
    (default_value : PyVal) : Except PyError PyVal :=
  match (if node.value = PyVal.none ∧ default_value ≠ PyVal.none then default_value
      else node.value) with
  | PyVal.str s =>
      if get_value_kind s = ValueKind.mandatory_missing then
        Except.error (PyError.missingMandatoryValue (c.get_full_key key))
      else Except.ok (PyVal.str s)
  | w => Except.ok w

/-- ListConfig.pop (listconfig.py 163-170): after the read-only check the
element is removed from content first and only then resolved, so a
resolution failure raises with the element already gone. -/
def ListConfig.pop (c : ListConfig) (index : Int) : Except PyError PyVal × ListConfig :=
  if c.getFlag "readonly" = some true then
    (Except.error (PyError.readonlyConfigError
      (some (c.get_full_key (if index ≠ -1 then toString index else "")))), c)
  else
    match pyPopList c.content index with
    | Option.none => (Except.error PyError.indexError, c)
    | some (node, rest) =>
        let c1 : ListConfig := { c with content := rest }
        match c1.resolve_with_default (toString index) node PyVal.none with
        | Except.ok v => (Except.ok v, c1)
        | Except.error e => (Except.error e, c1)

/-- ListConfig.sort (listconfig.py 172-188): ReadonlyConfigError *without
a path* when read-only; otherwise sort content by each node's stored
value passed through the caller's key function (`key1 x = key(x.value())`).
Python's stable sort is modelled by insertion sort; tie order is not
relied upon by any theorem. -/
def ListConfig.sort (c : ListConfig) {α : Type} [LinearOrder α] (keyf : PyVal → α) :
    Except PyError Unit × ListConfig :=
  if c.getFlag "readonly" = some true then
    (Except.error (PyError.readonlyConfigError Option.none), c)
  else
    (Except.ok (),
      { c with content :=
          List.insertionSort (fun a b : ValueNode => keyf a.value ≤ keyf b.value) c.content })

/-- The empty container `ListConfig(content=[])` with a given element
type: no local flags, no ancestors, rooted at the tree root. -/
def ListConfig.empty (et : NodeKind) : ListConfig :=
  { content := [], elemType := et, flags := [], ancestorFlags := [], pathBase := "" }

/-- A raw value is a plain primitive: primitive for the Any kind, and if
textual, classified plain by the resolver hook. -/
def plainPrim : PyVal → Bool
  | PyVal.obj _ => false
  | PyVal.str s => get_value_kind s = ValueKind.plain
  | _ => true

theorem lookup_isSome_of_mem {l : List (String × Int)} {p : String × Int}
    (h : p ∈ l) : (l.lookup p.1).isSome = true := by
  induction l with
  | nil => cases h
  | cons q t ih =>
      rcases List.mem_cons.mp h with h1 | h2
      · subst h1
        simp [List.lookup]
      · by_cases hq : p.1 = q.1
        · simp [List.lookup, hq]
        · simp only [List.lookup]
          rw [show (p.1 == q.1) = false by simp [hq]]
          exact ih h2

theorem pyLowerChar_digit {c : Char} (h : isDigitChar c = true) : pyLowerChar c = c := by
  have h2 : 48 ≤ c.toNat ∧ c.toNat ≤ 57 := by
    simpa [isDigitChar, Bool.and_eq_true, decide_eq_true_iff] using h
  rw [pyLowerChar, if_neg (by omega)]

theorem map_pyLowerChar_digits {cs : List Char} (h : cs.all isDigitChar = true) :
    cs.map pyLowerChar = cs := by
  induction cs with
  | nil => rfl
  | cons c t ih =>
      rw [List.all_cons, Bool.and_eq_true] at h
      simp [pyLowerChar_digit h.1, ih h.2]

theorem parseIntChars_fixes_lower {cs : List Char} {i : Int}
    (h : parseIntChars cs = some i) : cs.map pyLowerChar = cs := by
  cases cs with
  | nil => simp [parseIntChars] at h
  | cons c rest =>
      rw [parseIntChars] at h
      by_cases hm : c = '-'
      · subst hm
        rw [if_pos rfl] at h
        split at h
        · rename_i hcond
          simp [map_pyLowerChar_digits hcond.2, show pyLowerChar '-' = '-' from by decide]
        · cases h
      · rw [if_neg hm] at h
        by_cases hp : c = '+'
        · subst hp
          rw [if_pos rfl] at h
          split at h
          · rename_i hcond
            simp [map_pyLowerChar_digits hcond.2, show pyLowerChar '+' = '+' from by decide]
          · cases h
        · rw [if_neg hp] at h
          split at h
          · rename_i hcond
            exact map_pyLowerChar_digits hcond
          · cases h

theorem parseInt_fixes_pyLower {s : String} {i : Int}
    (h : parseInt s = some i) : pyLower s = s := by
  have hfix : s.data.map pyLowerChar = s.data := parseIntChars_fixes_lower h
  cases s with
  | mk data => exact congrArg String.mk hfix

/-- Claim C1: ValueNode.set_value stores an interpolation or
mandatory-missing string verbatim; otherwise it rejects None on a
non-optional node with ValidationError, and otherwise stores exactly the
result of validate_and_convert (propagating its failures). -/
theorem C1_set_value_contract (n : ValueNode) (v : PyVal) :
    (isInterpOrMissingStr v = true → n.set_value v = Except.ok { n with val := v }) ∧
    (isInterpOrMissingStr v = false → n.isOptional = false → v = PyVal.none →
      n.set_value v =
        Except.error (PyError.validationError "Non optional field cannot be assigned None")) ∧
    (isInterpOrMissingStr v = false → ¬(n.isOptional = false ∧ v = PyVal.none) →
      n.set_value v = (validate_and_convert n.kind v).map (fun c => { n with val := c })) := by
  refine ⟨?_, ?_, ?_⟩
  · intro h1
    simp [ValueNode.set_value, h1]
  · intro h1 h2 h3
    subst h3
    simp [ValueNode.set_value, isInterpOrMissingStr, h2]
  · intro h1 h2
    simp only [ValueNode.set_value, h1, Bool.false_eq_true, if_false]
    rw [if_neg h2]

theorem C1_witness :
    (isInterpOrMissingStr (PyVal.str "${a}") = true ∧
      ValueNode.set_value ⟨NodeKind.integer, false, PyVal.none⟩ (PyVal.str "${a}") =
        Except.ok ⟨NodeKind.integer, false, PyVal.str "${a}"⟩) ∧
    ValueNode.set_value ⟨NodeKind.integer, false, PyVal.none⟩ PyVal.none =
      Except.error (PyError.validationError "Non optional field cannot be assigned None") ∧
    ValueNode.set_value ⟨NodeKind.integer, false, PyVal.none⟩ (PyVal.str "42") =
      (validate_and_convert NodeKind.integer (PyVal.str "42")).map
        (fun c => ⟨NodeKind.integer, false, c⟩) :=
  ⟨⟨by decide, (C1_set_value_contract _ _).1 (by decide)⟩,
    (C1_set_value_contract _ _).2.1 (by decide) rfl rfl,
    (C1_set_value_contract _ _).2.2 (by decide) (by decide)⟩

/-- Claim C9: the AnyNode constructor forces is_optional to True no
matter what was passed, so assigning None to any constructed AnyNode
succeeds and value() returns None; a non-optional AnyNode cannot be
built through the public constructor. -/
theorem C9_anynode_always_optional (v : PyVal) (opt : Bool) (n : ValueNode)
    (h : AnyNode.make v opt = Except.ok n) :
    n.isOptional = true ∧
    n.set_value PyVal.none = Except.ok { n with val := PyVal.none } ∧
    ({ n with val := PyVal.none } : ValueNode).value = PyVal.none ∧
    AnyNode.make PyVal.none opt = Except.ok ⟨NodeKind.any, true, PyVal.none⟩ := by
  have hshape : n.isOptional = true ∧ n.kind = NodeKind.any := by
    have h2 : ValueNode.set_value ⟨NodeKind.any, true, PyVal.none⟩ v = Except.ok n := h
    unfold ValueNode.set_value at h2
    split at h2
    · cases h2; exact ⟨rfl, rfl⟩
    · split at h2
      · cases h2
      · cases hv : validate_and_convert NodeKind.any v with
        | ok w =>
            rw [hv] at h2
            cases h2
            exact ⟨rfl, rfl⟩
        | error e =>
            rw [hv] at h2
            cases h2
  refine ⟨hshape.1, ?_, rfl, ?_⟩
  · simp [ValueNode.set_value, isInterpOrMissingStr, hshape.1, hshape.2,
      validate_and_convert, is_primitive_type, Except.map]
  · cases opt <;> decide

theorem C9_witness :
    AnyNode.make (PyVal.int 7) false = Except.ok ⟨NodeKind.any, true, PyVal.int 7⟩ ∧
    ((⟨NodeKind.any, true, PyVal.int 7⟩ : ValueNode).isOptional = true ∧
      ValueNode.set_value ⟨NodeKind.any, true, PyVal.int 7⟩ PyVal.none =
        Except.ok ⟨NodeKind.any, true, PyVal.none⟩ ∧
      (⟨NodeKind.any, true, PyVal.none⟩ : ValueNode).value = PyVal.none ∧
      AnyNode.make PyVal.none false = Except.ok ⟨NodeKind.any, true, PyVal.none⟩) :=
  ⟨by decide, C9_anynode_always_optional (PyVal.int 7) false _ (by decide)⟩

/-- Claim C10: FloatNode equality against the raw value None is True
exactly when the stored value is None, yet two FloatNodes both storing
None compare False, because the None branches of FloatNode.__eq__ test
the operand object rather than its extracted stored value. -/
theorem C10_floatnode_none_eq (n n1 n2 : ValueNode)
    (_hk : n.kind = NodeKind.float) (_hk1 : n1.kind = NodeKind.float)
    (_hk2 : n2.kind = NodeKind.float)
    (h1 : n1.val = PyVal.none) (_h2 : n2.val = PyVal.none) :
    (FloatNode.eq n (PyOperand.raw PyVal.none) = true ↔ n.val = PyVal.none) ∧
    FloatNode.eq n1 (PyOperand.node n2) = false := by
  constructor
  · by_cases hv : n.val = PyVal.none <;>
      simp [FloatNode.eq, PyOperand.isPyNone, hv]
  · simp [FloatNode.eq, PyOperand.isPyNone, h1]

theorem C10_witness :
    ((⟨NodeKind.float, true, PyVal.none⟩ : ValueNode).val = PyVal.none) ∧
    ((FloatNode.eq ⟨NodeKind.float, true, PyVal.none⟩ (PyOperand.raw PyVal.none) = true ↔
        (⟨NodeKind.float, true, PyVal.none⟩ : ValueNode).val = PyVal.none) ∧
      FloatNode.eq ⟨NodeKind.float, true, PyVal.none⟩
        (PyOperand.node ⟨NodeKind.float, true, PyVal.none⟩) = false) :=
  ⟨rfl, C10_floatnode_none_eq _ _ _ rfl rfl rfl rfl rfl⟩

/-- Claim C4: for every scalar node kind and every raw input accepted by
that kind's validate_and_convert, the output is a fixed point:
re-applying validate_and_convert to it returns it unchanged. -/
theorem C4_validate_and_convert_idempotent (k : NodeKind) (x y : PyVal)
    (h : validate_and_convert k x = Except.ok y) :
    validate_and_convert k y = Except.ok y := by
  cases k with
  | any =>
      simp only [validate_and_convert] at h
      split at h
      · rename_i hprim
        cases h
        simp [validate_and_convert, hprim]
      · cases h
  | string =>
      cases x <;> simp only [validate_and_convert] at h <;> cases h <;>
        simp [validate_and_convert, pyStr]
  | integer =>
      cases x with
      | none => simp only [validate_and_convert] at h; cases h; simp [validate_and_convert]
      | int i => simp only [validate_and_convert] at h; cases h; simp [validate_and_convert]
      | str s =>
          simp only [validate_and_convert] at h
          cases hp : parseInt s with
          | some i => rw [hp] at h; cases h; simp [validate_and_convert]
          | none => rw [hp] at h; cases h
      | bool b => simp only [validate_and_convert] at h; cases h
      | float f => simp only [validate_and_convert] at h; cases h
      | enum et m => simp only [validate_and_convert] at h; cases h
      | obj t => simp only [validate_and_convert] at h; cases h
  | float =>
      cases x with
      | none => simp only [validate_and_convert] at h; cases h; simp [validate_and_convert]
      | int i => simp only [validate_and_convert] at h; cases h; simp [validate_and_convert]
      | float f => simp only [validate_and_convert] at h; cases h; simp [validate_and_convert]
      | str s =>
          simp only [validate_and_convert] at h
          cases hp : parseFloat s with
          | some f => rw [hp] at h; cases h; simp [validate_and_convert]
          | none => rw [hp] at h; cases h
      | bool b => simp only [validate_and_convert] at h; cases h
      | enum et m => simp only [validate_and_convert] at h; cases h
      | obj t => simp only [validate_and_convert] at h; cases h
  | boolean =>
      cases x with
      | none => simp only [validate_and_convert] at h; cases h; simp [validate_and_convert]
      | bool b => simp only [validate_and_convert] at h; cases h; simp [validate_and_convert]
      | int i => simp only [validate_and_convert] at h; cases h; simp [validate_and_convert]
      | str s =>
          simp only [validate_and_convert] at h
          cases hp : parseInt s with
          | some i => rw [hp] at h; cases h; simp [validate_and_convert]
          | none =>
              rw [hp] at h
              by_cases h1 : pyLower s ∈ ["yes", "y", "on", "true"]
              · rw [if_pos h1] at h
                cases h
                simp [validate_and_convert]
              · rw [if_neg h1] at h
                by_cases h2 : pyLower s ∈ ["no", "n", "off", "false"]
                · rw [if_pos h2] at h
                  cases h
                  simp [validate_and_convert]
                · rw [if_neg h2] at h
                  cases h
      | float f => simp only [validate_and_convert] at h; cases h
      | enum et m => simp only [validate_and_convert] at h; cases h
      | obj t => simp only [validate_and_convert] at h; cases h
  | enumT et =>
      cases x with
      | none => simp only [validate_and_convert] at h; cases h; simp [validate_and_convert]
      | enum et2 m =>
          simp only [validate_and_convert] at h
          split at h
          · rename_i he
            split at h
            · rename_i hl
              cases h
              simp [validate_and_convert, hl]
            · cases h
          · cases h
      | str s =>
          simp only [validate_and_convert] at h
          split at h
          · rename_i hl
            cases h
            simp [validate_and_convert, hl]
          · cases h
      | int i =>
          simp only [validate_and_convert] at h
          cases hf : et.members.find? (fun p => p.2 = i) with
          | some p =>
              rw [hf] at h
              cases h
              have hlk := lookup_isSome_of_mem (List.mem_of_find?_eq_some hf)
              simp [validate_and_convert, hlk]
          | none => rw [hf] at h; cases h
      | bool b => simp only [validate_and_convert] at h; cases h
      | float f => simp only [validate_and_convert] at h; cases h
      | obj t => simp only [validate_and_convert] at h; cases h

theorem C4_witness :
    validate_and_convert NodeKind.boolean (PyVal.str "off") = Except.ok (PyVal.bool false) ∧
    validate_and_convert NodeKind.boolean (PyVal.bool false) = Except.ok (PyVal.bool false) :=
  ⟨by decide, C4_validate_and_convert_idempotent NodeKind.boolean (PyVal.str "off")
    (PyVal.bool false) (by decide)⟩

/-- Claim C8: BooleanNode canonicalization: bools pass through, ints map
to (value != 0), None maps to None, strings in the case-insensitive
truthy/falsy vocabulary map to True/False, numeric-looking strings map
through their integer value, and every other string or type fails with
ValidationError; in particular "off" converts to False and "maybe"
fails. -/
theorem C8_boolean_canonicalization :
    (∀ b, validate_and_convert NodeKind.boolean (PyVal.bool b) = Except.ok (PyVal.bool b)) ∧
    (∀ i : Int, validate_and_convert NodeKind.boolean (PyVal.int i) =
      Except.ok (PyVal.bool (decide (i ≠ 0)))) ∧
    validate_and_convert NodeKind.boolean PyVal.none = Except.ok PyVal.none ∧
    (∀ s, pyLower s ∈ ["yes", "y", "on", "true"] →
      validate_and_convert NodeKind.boolean (PyVal.str s) = Except.ok (PyVal.bool true)) ∧
    (∀ s, pyLower s ∈ ["no", "n", "off", "false"] →
      validate_and_convert NodeKind.boolean (PyVal.str s) = Except.ok (PyVal.bool false)) ∧
    (∀ s i, parseInt s = some i →
      validate_and_convert NodeKind.boolean (PyVal.str s) =
        Except.ok (PyVal.bool (decide (i ≠ 0)))) ∧
    (∀ s, parseInt s = Option.none → pyLower s ∉ ["yes", "y", "on", "true"] →
      pyLower s ∉ ["no", "n", "off", "false"] →
      validate_and_convert NodeKind.boolean (PyVal.str s) =
        Except.error (PyError.validationError ("Value '" ++ s ++ "' is not a valid bool"))) ∧
    (∀ f, (validate_and_convert NodeKind.boolean (PyVal.float f)).isOk = false) ∧
    (∀ et m, (validate_and_convert NodeKind.boolean (PyVal.enum et m)).isOk = false) ∧
    (∀ t, (validate_and_convert NodeKind.boolean (PyVal.obj t)).isOk = false) ∧
    validate_and_convert NodeKind.boolean (PyVal.str "off") = Except.ok (PyVal.bool false) ∧
    validate_and_convert NodeKind.boolean (PyVal.str "maybe") =
      Except.error (PyError.validationError "Value 'maybe' is not a valid bool") := by
  refine ⟨fun b => by simp [validate_and_convert], fun i => by simp [validate_and_convert],
    by decide, ?_, ?_, ?_, ?_, fun f => by simp [validate_and_convert, Except.isOk, Except.toBool],
    fun et m => by simp [validate_and_convert, Except.isOk, Except.toBool],
    fun t => by simp [validate_and_convert, Except.isOk, Except.toBool],
    by decide, by decide⟩
  · intro s hs
    cases hp : parseInt s with
    | some i =>
        exfalso
        rw [parseInt_fixes_pyLower hp] at hs
        simp only [List.mem_cons, List.not_mem_nil, or_false] at hs
        rcases hs with h | h | h | h <;> subst h <;>
          · rw [show parseInt _ = Option.none from by decide] at hp
            cases hp
    | none => simp [validate_and_convert, hp, hs]
  · intro s hs
    have hnt : pyLower s ∉ ["yes", "y", "on", "true"] := by
      simp only [List.mem_cons, List.not_mem_nil, or_false] at hs ⊢
      rcases hs with h | h | h | h <;> rw [h] <;> decide
    cases hp : parseInt s with
    | some i =>
        exfalso
        rw [parseInt_fixes_pyLower hp] at hs
        simp only [List.mem_cons, List.not_mem_nil, or_false] at hs
        rcases hs with h | h | h | h <;> subst h <;>
          · rw [show parseInt _ = Option.none from by decide] at hp
            cases hp
    | none => simp [validate_and_convert, hp, hnt, hs]
  · intro s i hp
    simp [validate_and_convert, hp]
  · intro s hp h1 h2
    simp [validate_and_convert, hp, h1, h2]

theorem C8_witness :
    validate_and_convert NodeKind.boolean (PyVal.bool true) = Except.ok (PyVal.bool true) ∧
    validate_and_convert NodeKind.boolean (PyVal.int 3) = Except.ok (PyVal.bool true) ∧
    validate_and_convert NodeKind.boolean (PyVal.str "On") = Except.ok (PyVal.bool true) ∧
    validate_and_convert NodeKind.boolean (PyVal.str "No") = Except.ok (PyVal.bool false) ∧
    validate_and_convert NodeKind.boolean (PyVal.str "-2") = Except.ok (PyVal.bool true) ∧
    validate_and_convert NodeKind.boolean (PyVal.str "maybe") =
      Except.error (PyError.validationError "Value 'maybe' is not a valid bool") :=
  ⟨C8_boolean_canonicalization.1 true,
    by simpa using C8_boolean_canonicalization.2.1 3,
    C8_boolean_canonicalization.2.2.2.1 "On" (by decide),
    C8_boolean_canonicalization.2.2.2.2.1 "No" (by decide),
    by simpa using C8_boolean_canonicalization.2.2.2.2.2.1 "-2" (-2) (by decide),
    C8_boolean_canonicalization.2.2.2.2.2.2.1 "maybe" (by decide) (by decide) (by decide)⟩

/-- A key function for concrete witnesses: the numeric value of an int,
0 otherwise. -/
def intKey : PyVal → Int
  | PyVal.int i => i
  | _ => 0

theorem plainPrim_not_interp {v : PyVal} (h : plainPrim v = true) :
    isInterpOrMissingStr v = false := by
  cases v <;> simp_all [plainPrim, isInterpOrMissingStr]

theorem plainPrim_primitive {v : PyVal} (h : plainPrim v = true) :
    is_primitive_type v = true := by
  cases v <;> simp_all [plainPrim, is_primitive_type]

theorem set_value_any_plain {v : PyVal} (hv : plainPrim v = true) :
    ValueNode.set_value ⟨NodeKind.any, true, PyVal.none⟩ v =
      Except.ok ⟨NodeKind.any, true, v⟩ := by
  simp [ValueNode.set_value, plainPrim_not_interp hv, validate_and_convert,
    plainPrim_primitive hv, Except.map]

theorem append_any_plain (c : ListConfig) (v : PyVal)
    (hro : c.getFlag "readonly" ≠ some true) (het : c.elemType = NodeKind.any)
    (hv : plainPrim v = true) :
    c.append v =
      (Except.ok (), { c with content := c.content ++ [⟨NodeKind.any, true, v⟩] }) := by
  unfold ListConfig.append
  rw [if_neg hro, het]
  simp [maybe_wrap, mkNode, AnyNode.make, set_value_any_plain hv]

theorem extend_plain_spec (vs : List PyVal) (c : ListConfig)
    (hro : c.getFlag "readonly" ≠ some true) (het : c.elemType = NodeKind.any)
    (hvs : ∀ v ∈ vs, plainPrim v = true) :
    (c.extend vs).1 = Except.ok () ∧
    (c.extend vs).2.iterVals = c.iterVals ++ vs := by
  induction vs generalizing c with
  | nil => simp [ListConfig.extend]
  | cons v rest ih =>
      have hv : plainPrim v = true := hvs v (List.mem_cons_self v rest)
      have hrec := ih { c with content := c.content ++ [⟨NodeKind.any, true, v⟩] }
        hro het (fun w hw => hvs w (List.mem_cons_of_mem v hw))
      rw [ListConfig.extend, append_any_plain c v hro het hv]
      simp only at hrec ⊢
      refine ⟨hrec.1, ?_⟩
      rw [hrec.2]
      simp [ListConfig.iterVals, ValueNode.value]

/-- Claim C6: on a container that is not read-only, sort succeeds and
reorders the elements by each element's unwrapped scalar value
(`x.value()`, passed through the caller's key function), never by node
identity: the result is a permutation of the content that is sorted
under the key-of-value order. -/
theorem C6_sort_by_unwrapped_value {α : Type} [LinearOrder α] (c : ListConfig)
    (keyf : PyVal → α) (h : c.getFlag "readonly" ≠ some true) :
    (c.sort keyf).1 = Except.ok () ∧
    (c.sort keyf).2.content.Perm c.content ∧
    List.Sorted (fun a b : ValueNode => keyf a.value ≤ keyf b.value)
      (c.sort keyf).2.content := by
  unfold ListConfig.sort
  rw [if_neg h]
  refine ⟨rfl, List.perm_insertionSort _ _, ?_⟩
  haveI hto : IsTotal ValueNode (fun a b : ValueNode => keyf a.value ≤ keyf b.value) :=
    ⟨fun a b => le_total _ _⟩
  haveI htr : IsTrans ValueNode (fun a b : ValueNode => keyf a.value ≤ keyf b.value) :=
    ⟨fun a b d hab hbd => le_trans hab hbd⟩
  exact List.sorted_insertionSort _ _

def demoSort : ListConfig :=
  { content := [⟨NodeKind.any, true, PyVal.int 2⟩, ⟨NodeKind.any, true, PyVal.int 1⟩],
    elemType := NodeKind.any, flags := [], ancestorFlags := [], pathBase := "" }

theorem C6_witness :
    demoSort.getFlag "readonly" ≠ some true ∧
    ((demoSort.sort intKey).1 = Except.ok () ∧
      (demoSort.sort intKey).2.content.Perm demoSort.content ∧
      List.Sorted (fun a b : ValueNode => intKey a.value ≤ intKey b.value)
        (demoSort.sort intKey).2.content) :=
  ⟨by decide, C6_sort_by_unwrapped_value demoSort intKey (by decide)⟩

/-- Claim C7: appending finitely many plain primitive values one by one
to an empty container and then iterating yields exactly those values in
order, unwrapped to raw form rather than as nodes. -/
theorem C7_append_iter_roundtrip (vs : List PyVal)
    (hvs : ∀ v ∈ vs, plainPrim v = true) :
    ((ListConfig.empty NodeKind.any).extend vs).1 = Except.ok () ∧
    ((ListConfig.empty NodeKind.any).extend vs).2.iterVals = vs := by
  have h := extend_plain_spec vs (ListConfig.empty NodeKind.any) (by decide) rfl hvs
  simpa [ListConfig.iterVals, ListConfig.empty] using h

theorem C7_witness :
    (∀ v ∈ [PyVal.int 1, PyVal.str "a", PyVal.bool true], plainPrim v = true) ∧
    (((ListConfig.empty NodeKind.any).extend
        [PyVal.int 1, PyVal.str "a", PyVal.bool true]).1 = Except.ok () ∧
      ((ListConfig.empty NodeKind.any).extend
        [PyVal.int 1, PyVal.str "a", PyVal.bool true]).2.iterVals =
        [PyVal.int 1, PyVal.str "a", PyVal.bool true]) :=
  ⟨by decide, C7_append_iter_roundtrip _ (by decide)⟩

def demoRO : ListConfig :=
  { content := [⟨NodeKind.any, true, PyVal.int 1⟩], elemType := NodeKind.any,
    flags := [], ancestorFlags := [[("readonly", true)]], pathBase := "lst" }

/-- Claim C2 (amended): on a read-only sequence container (locally or via
an ancestor), set_item, append, insert, pop, sort, clear and a nonempty
extend fail with ReadonlyConfigError before any mutation, leaving the
state unchanged, and remove does too when the probed value occurs; the
error carries the attempted element's full path for set_item, append,
insert, remove and clear, the container path with the stringified index
(empty for the default -1) for pop, but sort's error carries no path. -/
theorem C2_readonly_mutation_guard (c : ListConfig)
    (h : c.getFlag "readonly" = some true) (i i0 : Int) (v x : PyVal)
    (vs : List PyVal) (hvs : vs ≠ []) (keyf : PyVal → Int)
    (hx : c.index x = Except.ok i0) :
    c.setItem i v =
      (Except.error (PyError.readonlyConfigError (some (c.get_full_key (toString i)))), c) ∧
    c.append v =
      (Except.error (PyError.readonlyConfigError
        (some (c.get_full_key (toString c.content.length)))), c) ∧
    c.insert i v =
      (Except.error (PyError.readonlyConfigError (some (c.get_full_key (toString i)))), c) ∧
    c.pop i =
      (Except.error (PyError.readonlyConfigError
        (some (c.get_full_key (if i ≠ -1 then toString i else "")))), c) ∧
    c.sort keyf = (Except.error (PyError.readonlyConfigError Option.none), c) ∧
    c.clear = (Except.error (PyError.readonlyConfigError (some (c.get_full_key ""))), c) ∧
    c.extend vs =
      (Except.error (PyError.readonlyConfigError
        (some (c.get_full_key (toString c.content.length)))), c) ∧
    c.remove x =
      (Except.error (PyError.readonlyConfigError (some (c.get_full_key (toString i0)))), c) := by
  refine ⟨?_, ?_, ?_, ?_, ?_, ?_, ?_, ?_⟩
  · simp [ListConfig.setItem, ListConfig.set_at_index, h]
  · simp [ListConfig.append, h]
  · simp [ListConfig.insert, h]
  · simp [ListConfig.pop, h]
  · simp [ListConfig.sort, h]
  · simp [ListConfig.clear, h]
  · cases vs with
    | nil => exact absurd rfl hvs
    | cons y ys => simp [ListConfig.extend, ListConfig.append, h]
  · simp [ListConfig.remove, hx, ListConfig.delItem, h]

/-- Claim C2, counterexample: on a read-only container, sort fails with a
ReadonlyConfigError that carries no path at all (listconfig.py line 176
raises a bare ReadonlyConfigError()), so the claim that every mutating
operation's error carries the attempted element's full path is false. -/
theorem C2_counterexample_sort_no_path :
    demoRO.getFlag "readonly" = some true ∧
    (demoRO.sort intKey).1 = Except.error (PyError.readonlyConfigError Option.none) :=
  ⟨by decide, by decide⟩

theorem C2_witness :
    (demoRO.getFlag "readonly" = some true ∧ ([PyVal.int 2] : List PyVal) ≠ [] ∧
      demoRO.index (PyVal.int 1) = Except.ok 0) ∧
    (demoRO.setItem 0 (PyVal.int 5) =
      (Except.error (PyError.readonlyConfigError
        (some (demoRO.get_full_key (toString (0 : Int))))), demoRO) ∧
    demoRO.append (PyVal.int 5) =
      (Except.error (PyError.readonlyConfigError
        (some (demoRO.get_full_key (toString demoRO.content.length)))), demoRO) ∧
    demoRO.insert 0 (PyVal.int 5) =
      (Except.error (PyError.readonlyConfigError
        (some (demoRO.get_full_key (toString (0 : Int))))), demoRO) ∧
    demoRO.pop 0 =
      (Except.error (PyError.readonlyConfigError
        (some (demoRO.get_full_key (if (0 : Int) ≠ -1 then toString (0 : Int) else "")))),
        demoRO) ∧
    demoRO.sort intKey = (Except.error (PyError.readonlyConfigError Option.none), demoRO) ∧
    demoRO.clear =
      (Except.error (PyError.readonlyConfigError (some (demoRO.get_full_key ""))), demoRO) ∧
    demoRO.extend [PyVal.int 2] =
      (Except.error (PyError.readonlyConfigError
        (some (demoRO.get_full_key (toString demoRO.content.length)))), demoRO) ∧
    demoRO.remove (PyVal.int 1) =
      (Except.error (PyError.readonlyConfigError
        (some (demoRO.get_full_key (toString (0 : Int))))), demoRO)) :=
  ⟨⟨by decide, by decide, by decide⟩,
    C2_readonly_mutation_guard demoRO (by decide) 0 0 (PyVal.int 5) (PyVal.int 1)
      [PyVal.int 2] (by decide) intKey (by decide)⟩

theorem eraseIdx_insertAt (l : List α) (i : Nat) (a : α) (h : i ≤ l.length) :
    (insertAt l i a).eraseIdx i = l := by
  induction l generalizing i with
  | nil =>
      have hi : i = 0 := Nat.le_zero.mp h
      subst hi
      rfl
  | cons b t ih =>
      cases i with
      | zero => rfl
      | succ j =>
          have hj : j ≤ t.length := Nat.succ_le_succ_iff.mp h
          show ((b :: t).take (j + 1) ++ a :: (b :: t).drop (j + 1)).eraseIdx (j + 1) = b :: t
          rw [List.take_succ_cons, List.drop_succ_cons, List.cons_append,
            List.eraseIdx_cons_succ]
          exact congrArg (b :: ·) (ih j hj)

/-- Claim C3 (amended): insert is transactional for indices between 0 and
the length inclusive: if any step of the assignment fails, the
placeholder is removed, the error propagates and the container state is
exactly the pre-call state.  (For negative or past-the-end indices the
clamped placeholder position and the raw rollback index disagree, so the
rollback can delete a different element or fail.) -/
theorem C3_insert_transactional (c : ListConfig) (index : Int) (item : PyVal) (e : PyError)
    (h0 : 0 ≤ index) (h1 : index ≤ (c.content.length : Int))
    (herr : (c.insert index item).1 = Except.error e) :
    (c.insert index item).2 = c := by
  by_cases hro : c.getFlag "readonly" = some true
  · simp [ListConfig.insert, hro]
  · have hpos : pyInsertPos index c.content.length = index.toNat := by
      unfold pyInsertPos
      rw [if_neg (by omega), Nat.min_eq_left (by omega)]
    have hlen : (insertAt c.content index.toNat anyNodeNone).length =
        c.content.length + 1 := by
      unfold insertAt
      rw [List.length_append, List.length_take, List.length_cons, List.length_drop]
      omega
    have hni : normIdx index (c.content.length + 1) = some index.toNat := by
      unfold normIdx
      rw [if_pos (by constructor <;> omega)]
    unfold ListConfig.insert at herr ⊢
    rw [if_neg hro, hpos] at herr ⊢
    cases hsa : ({ c with content := (insertAt c.content index.toNat anyNodeNone) } :
        ListConfig).set_at_index index item with
    | ok c2 =>
        rw [hsa] at herr
        exact Except.noConfusion herr
    | error e2 =>
        simp only [hlen, hni]
        rw [eraseIdx_insertAt c.content index.toNat anyNodeNone (by omega)]

def demoIns : ListConfig :=
  { content := [⟨NodeKind.any, true, PyVal.int 1⟩, ⟨NodeKind.any, true, PyVal.int 2⟩],
    elemType := NodeKind.any, flags := [], ancestorFlags := [], pathBase := "" }

/-- Claim C3, counterexample: insert(-1, bad) on a 2-element container
places the placeholder at position 1 but the failing assignment and the
rollback deletion apply the raw index -1, so the rollback removes the
*last* element instead of the placeholder: after the failure the
placeholder is still present, the original second element is gone, and
the container does not revert to its pre-call state. -/
theorem C3_counterexample_negative_index :
    (demoIns.insert (-1) (PyVal.obj "object")).1 =
      Except.error (PyError.unsupportedValueType "key [-1]: object is not a supported type") ∧
    (demoIns.insert (-1) (PyVal.obj "object")).2.content =
      [⟨NodeKind.any, true, PyVal.int 1⟩, anyNodeNone] ∧
    (demoIns.insert (-1) (PyVal.obj "object")).2 ≠ demoIns :=
  ⟨by decide, by decide, by decide⟩

theorem C3_witness :
    ((0 : Int) ≤ 0 ∧ (0 : Int) ≤ (demoIns.content.length : Int) ∧
      (demoIns.insert 0 (PyVal.obj "object")).1 =
        Except.error (PyError.unsupportedValueType
          "key [0]: object is not a supported type")) ∧
    (demoIns.insert 0 (PyVal.obj "object")).2 = demoIns :=
  ⟨⟨by decide, by decide, by decide⟩,
    C3_insert_transactional demoIns 0 (PyVal.obj "object")
      (PyError.unsupportedValueType "key [0]: object is not a supported type")
      (by decide) (by decide) (by decide)⟩

theorem resolve_err_missing {c : ListConfig} {key : String} {n : ValueNode} {d : PyVal}
    {e : PyError} (h : c.resolve_with_default key n d = Except.error e) :
    ∃ p, e = PyError.missingMandatoryValue p := by
  unfold ListConfig.resolve_with_default at h
  split at h
  · rename_i s heq
    split at h
    · cases h
      exact ⟨_, rfl⟩
    · cases h
  · cases h

theorem normIdx_lt {index : Int} {len j : Nat} (h : normIdx index len = some j) :
    j < len := by
  unfold normIdx at h
  split at h
  · rename_i hc
    cases h
    omega
  · split at h
    · rename_i hc
      cases h
      omega
    · cases h

theorem pyPopList_length {l : List α} {index : Int} {a : α} {rest : List α}
    (h : pyPopList l index = some (a, rest)) : rest.length + 1 = l.length := by
  unfold pyPopList at h
  cases hn : normIdx index l.length with
  | none => simp [hn] at h
  | some j =>
      cases hg : l[j]? with
      | none => simp [hn, hg] at h
      | some b =>
          simp only [hn, hg, Option.some.injEq, Prod.mk.injEq] at h
          rcases h with ⟨h1, h2⟩
          subst h2
          exact List.length_eraseIdx_add_one (normIdx_lt hn)

/-- Claim C5 (amended): every mutating operation other than insert and
extend leaves the container unchanged when it raises (set_item, append,
sort, remove, clear), and pop leaves the container unchanged when it
fails its read-only or index check; but a pop whose removed element
fails resolution (mandatory-missing) raises with the element already
removed, and a failing extend keeps the elements appended before the
failure. -/
theorem C5_no_partial_mutation (c : ListConfig) (i : Int) (v x : PyVal)
    (keyf : PyVal → Int) (e : PyError) (p : Option String) (s : String) :
    ((c.setItem i v).1 = Except.error e → (c.setItem i v).2 = c) ∧
    ((c.append v).1 = Except.error e → (c.append v).2 = c) ∧
    ((c.sort keyf).1 = Except.error e → (c.sort keyf).2 = c) ∧
    ((c.remove x).1 = Except.error e → (c.remove x).2 = c) ∧
    (c.clear.1 = Except.error e → c.clear.2 = c) ∧
    ((c.pop i).1 = Except.error (PyError.readonlyConfigError p) → (c.pop i).2 = c) ∧
    ((c.pop i).1 = Except.error PyError.indexError → (c.pop i).2 = c) ∧
    ((c.pop i).1 = Except.error (PyError.missingMandatoryValue s) →
      (c.pop i).2.content.length + 1 = c.content.length) := by
  refine ⟨?_, ?_, ?_, ?_, ?_, ?_, ?_, ?_⟩
  · cases hsa : c.set_at_index i v with
    | ok c2 => simp [ListConfig.setItem, hsa]
    | error e2 => simp [ListConfig.setItem, hsa]
  · by_cases hro : c.getFlag "readonly" = some true
    · simp [ListConfig.append, hro]
    · cases hw : maybe_wrap c.elemType v true with
      | ok node => simp [ListConfig.append, hro, hw]
      | error e2 => cases e2 <;> simp [ListConfig.append, hro, hw]
  · by_cases hro : c.getFlag "readonly" = some true
    · simp [ListConfig.sort, hro]
    · simp [ListConfig.sort, hro]
  · cases hidx : c.index x with
    | error e2 => simp [ListConfig.remove, hidx]
    | ok i0 =>
        by_cases hro : c.getFlag "readonly" = some true
        · simp [ListConfig.remove, hidx, ListConfig.delItem, hro]
        · cases hn : normIdx i0 c.content.length with
          | some j => simp [ListConfig.remove, hidx, ListConfig.delItem, hro, hn]
          | none => simp [ListConfig.remove, hidx, ListConfig.delItem, hro, hn]
  · by_cases hro : c.getFlag "readonly" = some true
    · simp [ListConfig.clear, hro]
    · simp [ListConfig.clear, hro]
  · by_cases hro : c.getFlag "readonly" = some true
    · simp [ListConfig.pop, hro]
    · cases hpp : pyPopList c.content i with
      | none => simp [ListConfig.pop, hro, hpp]
      | some pr =>
          obtain ⟨node, rest⟩ := pr
          cases hr : ({ c with content := rest } : ListConfig).resolve_with_default
              (toString i) node PyVal.none with
          | ok w => simp [ListConfig.pop, hro, hpp, hr]
          | error e0 =>
              obtain ⟨p0, rfl⟩ := resolve_err_missing hr
              simp [ListConfig.pop, hro, hpp, hr]
  · by_cases hro : c.getFlag "readonly" = some true
    · simp [ListConfig.pop, hro]
    · cases hpp : pyPopList c.content i with
      | none => simp [ListConfig.pop, hro, hpp]
      | some pr =>
          obtain ⟨node, rest⟩ := pr
          cases hr : ({ c with content := rest } : ListConfig).resolve_with_default
              (toString i) node PyVal.none with
          | ok w => simp [ListConfig.pop, hro, hpp, hr]
          | error e0 =>
              obtain ⟨p0, rfl⟩ := resolve_err_missing hr
              simp [ListConfig.pop, hro, hpp, hr]
  · by_cases hro : c.getFlag "readonly" = some true
    · simp [ListConfig.pop, hro]
    · cases hpp : pyPopList c.content i with
      | none => simp [ListConfig.pop, hro, hpp]
      | some pr =>
          obtain ⟨node, rest⟩ := pr
          cases hr : ({ c with content := rest } : ListConfig).resolve_with_default
              (toString i) node PyVal.none with
          | ok w => simp [ListConfig.pop, hro, hpp, hr]
          | error e0 =>
              intro _
              have hlen := pyPopList_length hpp
              simpa [ListConfig.pop, hro, hpp, hr] using hlen

/-- Claim C5, counterexample: extend on an empty container with a list
whose second element is unsupported raises UnsupportedValueType but
leaves the first element appended, so the failing mutating operation did
change the content. -/
theorem C5_counterexample_extend_partial :
    ((ListConfig.empty NodeKind.any).extend [PyVal.int 1, PyVal.obj "object"]).1 =
      Except.error (PyError.unsupportedValueType
        "key [1]: object is not a supported type") ∧
    ((ListConfig.empty NodeKind.any).extend [PyVal.int 1, PyVal.obj "object"]).2.content =
      [⟨NodeKind.any, true, PyVal.int 1⟩] ∧
    ((ListConfig.empty NodeKind.any).extend [PyVal.int 1, PyVal.obj "object"]).2.content ≠
      (ListConfig.empty NodeKind.any).content :=
  ⟨by decide, by decide, by decide⟩

def demoPop : ListConfig :=
  { content := [⟨NodeKind.any, true, PyVal.str "???"⟩], elemType := NodeKind.any,
    flags := [], ancestorFlags := [], pathBase := "" }

theorem C5_witness :
    (demoPop.pop 0).1 = Except.error (PyError.missingMandatoryValue "[0]") ∧
    (demoPop.pop 0).2.content.length + 1 = demoPop.content.length :=
  ⟨by decide,
    (C5_no_partial_mutation demoPop 0 PyVal.none PyVal.none intKey PyError.indexError
      Option.none "[0]").2.2.2.2.2.2.2 (by decide)⟩
